import Mathlib

/-!
Shallow embedding of the order lifecycle and payment reconciliation core of
the "Soggy Potatoes" storefront (`shop/models.py`, `shop/views.py`,
`shop/payments.py`).

Conventions of the embedding:
* Django `DecimalField` currency amounts become `ℚ` (exact decimal
  arithmetic, as Python's `Decimal`).
* `Product.stock` is kept as `ℤ`: the fulfilment code performs a plain
  `stock -= quantity` with no floor, and the in-memory Python value is an
  unbounded integer that may go negative.
* Database rows become lists of records; `Model.objects.get(...)` /
  `filter(...)` become `List.find?` / `List.filter` over those lists.
* External effects (the Stripe API, the random order-number suffix, the
  current date, form validation) are passed in as explicit parameters, so
  every handler is a pure function from an input and a state to a response
  and a new state.
* Sending the order-confirmation email is modelled by incrementing an
  `emailsSent` counter in the state.
-/

/-- Order status values, from `Order.STATUS_CHOICES` in `shop/models.py`. -/
inductive OrderStatus where
  | pending
  | processing
  | shipped
  | delivered
  | cancelled
deriving DecidableEq, Repr

/-- `shop.models.Product` — the fields used by the cart/checkout/fulfilment
code: `price`, nullable `sale_price`, `stock`, `track_inventory`,
`is_active`. -/
structure Product where
  id : Nat
  name : String
  price : ℚ
  sale_price : Option ℚ
  stock : ℤ
  track_inventory : Bool
  is_active : Bool
deriving DecidableEq, Repr

/-- `Product.current_price` from `shop/models.py`:
`if self.sale_price: return self.sale_price` — Python truthiness, so a
`sale_price` of `None` *or* zero falls through to `price`. -/
def Product.current_price (p : Product) : ℚ :=
  match p.sale_price with
  | some sp => if sp = 0 then p.price else sp
  | none => p.price

/-- The spec's formula for the current price, for comparison with the
source's `Product.current_price`: "sale_price if present and < price,
else price". -/
def spec_current_price (p : Product) : ℚ :=
  match p.sale_price with
  | some sp => if sp < p.price then sp else p.price
  | none => p.price

/-- `shop.models.CartItem`: one row of a cart, a product reference plus a
quantity (the cart itself is the list of its items). -/
structure CartItem where
  product_id : Nat
  quantity : Nat
deriving DecidableEq, Repr

/-- `shop.models.OrderItem` — immutable snapshot of an ordered product:
nullable product reference (`SET_NULL`), copied name and price, quantity. -/
structure OrderItem where
  order_id : Nat
  product_id : Option Nat
  product_name : String
  product_price : ℚ
  quantity : Nat
deriving DecidableEq, Repr

/-- `shop.models.Order` — the fields read or written by the checkout,
redirect and webhook handlers.  `stripe_payment_intent_id` stores the
checkout-session id, as in the source. -/
structure Order where
  id : Nat
  order_number : String
  status : OrderStatus
  email : String
  phone : String
  shipping_name : String
  shipping_address : String
  shipping_city : String
  shipping_state : String
  shipping_zip : String
  shipping_country : String
  subtotal : ℚ
  shipping_cost : ℚ
  tax : ℚ
  total : ℚ
  stripe_payment_intent_id : String
deriving DecidableEq, Repr

/-- One of the four random decimal digits of an order-number suffix,
rendered as a character (`random.choices('0123456789', k=4)`). -/
def digitChar (i : Fin 10) : Char :=
  Char.ofNat (48 + i.val)

/-- The four-character random suffix of an order number
(`''.join(random.choices('0123456789', k=4))`). -/
def orderNumberSuffix (d1 d2 d3 d4 : Fin 10) : String :=
  String.mk [digitChar d1, digitChar d2, digitChar d3, digitChar d4]

/-- `Order.save` from `shop/models.py`: when `order_number` is empty,
generate `SP-{YYYYMMDD}-{4 random digits}`; otherwise save the row
unchanged.  The date string and the four random digits are inputs of the
model. -/
def Order.save (o : Order) (dateStr : String) (d1 d2 d3 d4 : Fin 10) : Order :=
  if o.order_number = "" then
    { o with order_number := "SP-" ++ dateStr ++ "-" ++ orderNumberSuffix d1 d2 d3 d4 }
  else
    o

/-- The mutable storage the order/payment handlers touch: the product
table, the current buyer's cart rows, the order and order-item tables, and
a counter of dispatched confirmation emails
(`send_order_confirmation_email`). -/
structure ShopState where
  products : List Product
  cartItems : List CartItem
  orders : List Order
  orderItems : List OrderItem
  emailsSent : Nat
deriving DecidableEq, Repr

/-- `Product.objects.get(pk=..)`-style lookup of a product row by id. -/
def findProduct (products : List Product) (pid : Nat) : Option Product :=
  products.find? (fun p => p.id == pid)

/-- `Order.objects.get(stripe_payment_intent_id=sid)`: lookup of the order
holding a given checkout-session / payment-intent id (`None` models
`Order.DoesNotExist`). -/
def findOrderBySession (orders : List Order) (sid : String) : Option Order :=
  orders.find? (fun o => o.stripe_payment_intent_id == sid)

/-- `order.status = st; order.save()` — update the status of the order row
with the given id. -/
def setOrderStatus (s : ShopState) (oid : Nat) (st : OrderStatus) : ShopState :=
  { s with orders := s.orders.map (fun o => if o.id == oid then { o with status := st } else o) }

/-- One step of the fulfilment stock loop: for an order item,
`if item.product: item.product.stock -= item.quantity; item.product.save()`. -/
def applyItemDecrement (products : List Product) (oi : OrderItem) : List Product :=
  match oi.product_id with
  | none => products
  | some pid =>
      products.map (fun p => if p.id == pid then { p with stock := p.stock - oi.quantity } else p)

/-- The fulfilment stock loop of `payment_success` /
`handle_successful_payment`: `for item in order.items.all(): ...` over the
order's items. -/
def reduceStockForOrder (s : ShopState) (oid : Nat) : ShopState :=
  { s with products := (s.orderItems.filter (fun oi => oi.order_id == oid)).foldl applyItemDecrement s.products }

/-- `handle_successful_payment(session)` from `shop/views.py`: look up the
order by the session id; only if it is still `pending`, set it
`processing`, decrement stock for its items, and send the confirmation
email.  An unmatched session is logged and ignored. -/
def handle_successful_payment (s : ShopState) (sessionId : String) : ShopState :=
  match findOrderBySession s.orders sessionId with
  | none => s
  | some order =>
      if order.status = .pending then
        let s1 := setOrderStatus s order.id .processing
        let s2 := reduceStockForOrder s1 order.id
        { s2 with emailsSent := s2.emailsSent + 1 }
      else
        s

/-- `handle_failed_payment(intent)` from `shop/views.py`: look up the order
by the payment-intent id and set its status to `cancelled` — with no check
of the current status. -/
def handle_failed_payment (s : ShopState) (intentId : String) : ShopState :=
  match findOrderBySession s.orders intentId with
  | none => s
  | some order => setOrderStatus s order.id .cancelled

/-- A Stripe checkout-session object as the handlers read it: its id, its
hosted-payment redirect URL, and its `payment_status` field. -/
structure StripeSession where
  id : String
  url : String
  payment_status : String
deriving DecidableEq, Repr

/-- Outcome of `payments.construct_webhook_event`: a verified event, or the
`ValueError` (malformed payload) / `SignatureVerificationError` raised by
the Stripe SDK.  Verification itself happens in the SDK, so its result is
an input of the model. -/
inductive WebhookVerify where
  | ok (eventType : String) (objectId : String)
  | invalidPayload
  | invalidSignature
deriving DecidableEq, Repr

/-- `stripe_webhook(request)` from `shop/views.py`: reject a missing
`Stripe-Signature` header or a failed verification with HTTP 400;
dispatch `checkout.session.completed` / `payment_intent.payment_failed`
events to their handlers; acknowledge everything verified with HTTP 200. -/
def stripe_webhook (s : ShopState) (sigHeader : Option String) (verify : WebhookVerify) :
    Nat × ShopState :=
  match sigHeader with
  | none => (400, s)
  | some _ =>
      match verify with
      | .invalidPayload => (400, s)
      | .invalidSignature => (400, s)
      | .ok eventType objectId =>
          if eventType = "checkout.session.completed" then
            (200, handle_successful_payment s objectId)
          else if eventType = "payment_intent.payment_failed" then
            (200, handle_failed_payment s objectId)
          else
            (200, s)

/-- Responses of the `payment_success` redirect view. -/
inductive PaymentSuccessOutcome where
  | invalidSession
  | confirmed (orderNumber : String)
  | awaiting (orderNumber : String)
  | orderNotFound
  | verifyError
deriving DecidableEq, Repr

/-- `payment_success(request)` from `shop/views.py`: re-retrieve the
session from Stripe (`retrieval` is the provider's answer), look up the
order by the session id, and if `payment_status == 'paid'` set the order
`processing`, decrement stock, clear the buyer's cart and send the
confirmation email — with no check of the order's current status. -/
def payment_success (s : ShopState) (sessionIdParam : Option String)
    (retrieval : Except Unit StripeSession) : PaymentSuccessOutcome × ShopState :=
  match sessionIdParam with
  | none => (.invalidSession, s)
  | some sid =>
      match retrieval with
      | .error _ => (.verifyError, s)
      | .ok sess =>
          match findOrderBySession s.orders sid with
          | none => (.orderNotFound, s)
          | some order =>
              if sess.payment_status = "paid" then
                let s1 := setOrderStatus s order.id .processing
                let s2 := reduceStockForOrder s1 order.id
                let s3 := { s2 with cartItems := [] }
                (.confirmed order.order_number, { s3 with emailsSent := s3.emailsSent + 1 })
              else
                (.awaiting order.order_number, s)

/-- `CartItem.total_price` from `shop/models.py`:
`product.current_price * quantity`, with the product row resolved through
its foreign key (always present for a cart item; a dangling reference
contributes nothing). -/
def cartItemTotalPrice (products : List Product) (ci : CartItem) : ℚ :=
  match findProduct products ci.product_id with
  | some p => p.current_price * ci.quantity
  | none => 0

/-- `Cart.subtotal`: `sum(item.total_price for item in self.items.all())`. -/
def cartSubtotal (products : List Product) (items : List CartItem) : ℚ :=
  (items.map (cartItemTotalPrice products)).foldl (· + ·) 0

/-- `Cart.total_items`: `sum(item.quantity for item in self.items.all())`. -/
def cartTotalItems (items : List CartItem) : Nat :=
  (items.map (·.quantity)).foldl (· + ·) 0

/-- The checkout stock-validation loop (`for item in cart.items.all(): if
item.quantity > item.product.stock: ...`): the product of the first cart
item whose quantity exceeds its stock, if any. -/
def firstStockViolation (products : List Product) (items : List CartItem) : Option Product :=
  items.findSome? (fun ci =>
    match findProduct products ci.product_id with
    | some p => if (ci.quantity : ℤ) > p.stock then some p else none
    | none => none)

/-- The cleaned data of a valid `CheckoutForm`. -/
structure ShippingForm where
  email : String
  phone : String
  shipping_name : String
  shipping_address : String
  shipping_city : String
  shipping_state : String
  shipping_zip : String
  shipping_country : String
deriving DecidableEq, Repr

/-- The order-creation block of `checkout_view` (`Order.objects.create(...)`
with status `pending` followed by one `OrderItem.objects.create(...)` per
cart item, snapshotting `product.name` and `product.current_price`); stock
is not reduced here and the cart is not cleared.  `Order.objects.create`
runs `Order.save`, which generates the order number. -/
def createOrderFromCart (s : ShopState) (form : ShippingForm) (newOrderId : Nat)
    (dateStr : String) (d1 d2 d3 d4 : Fin 10) : Order × ShopState :=
  let subtotal := cartSubtotal s.products s.cartItems
  let shipping_cost : ℚ := 0
  let tax : ℚ := 0
  let total := subtotal + shipping_cost + tax
  let order : Order :=
    { id := newOrderId
      order_number := ""
      status := .pending
      email := form.email
      phone := form.phone
      shipping_name := form.shipping_name
      shipping_address := form.shipping_address
      shipping_city := form.shipping_city
      shipping_state := form.shipping_state
      shipping_zip := form.shipping_zip
      shipping_country := form.shipping_country
      subtotal := subtotal
      shipping_cost := shipping_cost
      tax := tax
      total := total
      stripe_payment_intent_id := "" }
  let order := order.save dateStr d1 d2 d3 d4
  let newItems := s.cartItems.filterMap (fun ci =>
    (findProduct s.products ci.product_id).map (fun p =>
      { order_id := newOrderId
        product_id := some ci.product_id
        product_name := p.name
        product_price := p.current_price
        quantity := ci.quantity : OrderItem }))
  (order, { s with orders := s.orders ++ [order], orderItems := s.orderItems ++ newItems })

/-- The dev-mode stock loop of `checkout_view`:
`for cart_item in cart.items.all(): cart_item.product.stock -= cart_item.quantity`. -/
def reduceStockForCart (s : ShopState) : ShopState :=
  let prods := s.cartItems.foldl (fun prods ci =>
    prods.map (fun p => if p.id == ci.product_id then { p with stock := p.stock - ci.quantity } else p))
    s.products
  { s with products := prods }

/-- An admin edit of a product: the row with the edited product's id is
replaced by the edited values. -/
def updateProduct (s : ShopState) (p : Product) : ShopState :=
  { s with products := s.products.map (fun q => if q.id == p.id then p else q) }

/-- Responses of `checkout_view`. -/
inductive CheckoutOutcome where
  | emptyCartRedirect
  | stockError (productName : String) (available : ℤ)
  | renderForm
  | redirectToStripe (url : String)
  | paymentErrorRedirect
  | devConfirmed (orderNumber : String)
deriving DecidableEq, Repr

/-- `checkout_view(request)` from `shop/views.py`: reject an empty cart;
reject a cart item exceeding stock with a message naming the product; on a
valid POST create the pending order and its item snapshots, then either
hand off to Stripe (deleting the order again, `OrderItem` rows cascading,
when session creation raises `stripe.error.StripeError`) or, with no
Stripe keys configured, confirm inline: status `processing`, stock
decremented per cart item, cart cleared, confirmation email sent. -/
def checkout_view (s : ShopState) (isPost : Bool) (formValid : Bool) (form : ShippingForm)
    (stripeConfigured : Bool) (gateway : Except Unit StripeSession) (newOrderId : Nat)
    (dateStr : String) (d1 d2 d3 d4 : Fin 10) : CheckoutOutcome × ShopState :=
  if cartTotalItems s.cartItems = 0 then
    (.emptyCartRedirect, s)
  else
    match firstStockViolation s.products s.cartItems with
    | some p => (.stockError p.name p.stock, s)
    | none =>
        if isPost && formValid then
          let (order, s1) := createOrderFromCart s form newOrderId dateStr d1 d2 d3 d4
          if stripeConfigured then
            match gateway with
            | .ok sess =>
                let s2 := { s1 with orders := s1.orders.map (fun o =>
                  if o.id == order.id then { o with stripe_payment_intent_id := sess.id } else o) }
                (.redirectToStripe sess.url, s2)
            | .error _ =>
                let s2 := { s1 with
                  orders := s1.orders.filter (fun o => o.id != order.id),
                  orderItems := s1.orderItems.filter (fun oi => oi.order_id != order.id) }
                (.paymentErrorRedirect, s2)
          else
            let s2 := setOrderStatus s1 order.id .processing
            let s3 := reduceStockForCart s2
            let s4 := { s3 with cartItems := [] }
            (.devConfirmed order.order_number, { s4 with emailsSent := s4.emailsSent + 1 })
        else
          (.renderForm, s)

/-- Responses of `add_to_cart`. -/
inductive AddToCartResult where
  | notFound
  | insufficientStock (available : ℤ)
  | added
deriving DecidableEq, Repr

/-- The quantity of the cart's existing row for a product, `0` when the
product is not yet in the cart. -/
def existingQty (cart : List CartItem) (pid : Nat) : Nat :=
  ((cart.find? (fun ci => ci.product_id == pid)).map (·.quantity)).getD 0

/-- `add_to_cart(request, product_id)` from `shop/views.py`:
`get_object_or_404(Product, pk=product_id, is_active=True)`, then reject
`quantity > product.stock`; `CartItem.objects.get_or_create` either makes a
new row with the requested quantity or increments the existing row, the
increment re-checked against `product.stock`.  `track_inventory` is never
consulted. -/
def add_to_cart (products : List Product) (cart : List CartItem) (productId : Nat)
    (quantity : Nat) : AddToCartResult × List CartItem :=
  match products.find? (fun p => p.id == productId && p.is_active) with
  | none => (.notFound, cart)
  | some product =>
      if (quantity : ℤ) > product.stock then
        (.insufficientStock product.stock, cart)
      else
        match cart.find? (fun ci => ci.product_id == product.id) with
        | none => (.added, cart ++ [{ product_id := product.id, quantity := quantity }])
        | some item =>
            let new_quantity := item.quantity + quantity
            if (new_quantity : ℤ) > product.stock then
              (.insufficientStock product.stock, cart)
            else
              (.added, cart.map (fun ci =>
                if ci.product_id == product.id then { ci with quantity := new_quantity } else ci))

/-- A filled-in checkout form used by the concrete scenarios. -/
def sampleForm : ShippingForm :=
  { email := "buyer@example.com"
    phone := ""
    shipping_name := "Sam Buyer"
    shipping_address := "1 Potato Lane"
    shipping_city := "Boise"
    shipping_state := "ID"
    shipping_zip := "83701"
    shipping_country := "United States" }

/-- A base order record for the concrete scenarios. -/
def baseOrder : Order :=
  { id := 1
    order_number := "SP-20260101-1111"
    status := .pending
    email := "buyer@example.com"
    phone := ""
    shipping_name := "Sam Buyer"
    shipping_address := "1 Potato Lane"
    shipping_city := "Boise"
    shipping_state := "ID"
    shipping_zip := "83701"
    shipping_country := "United States"
    subtotal := 12
    shipping_cost := 0
    tax := 0
    total := 12
    stripe_payment_intent_id := "cs_1" }

/-- Product with a `sale_price` above its `price`: price 5, sale price 10. -/
def productSaleAbovePrice : Product :=
  { id := 1, name := "Odd Sale", price := 5, sale_price := some 10
    stock := 3, track_inventory := true, is_active := true }

/-- Product with inventory tracking disabled and zero stock. -/
def productUntracked : Product :=
  { id := 1, name := "Untracked", price := 1, sale_price := none
    stock := 0, track_inventory := false, is_active := true }

/-- Product with 10 units in stock, one of which order `baseOrder` buys
three of. -/
def productW : Product :=
  { id := 1, name := "Cat Sticker", price := 4, sale_price := none
    stock := 10, track_inventory := true, is_active := true }

/-- The order item of `baseOrder`: three units of `productW`. -/
def orderItemW : OrderItem :=
  { order_id := 1, product_id := some 1, product_name := "Cat Sticker"
    product_price := 4, quantity := 3 }

/-- A pending order awaiting payment confirmation for session `cs_1`, with
`productW` in stock and an empty cart. -/
def sAwaiting : ShopState :=
  { products := [productW]
    cartItems := []
    orders := [baseOrder]
    orderItems := [orderItemW]
    emailsSent := 0 }

/-- A fulfilled (`processing`) order whose payment intent id is `pi_1`. -/
def sFulfilled : ShopState :=
  { products := [productW]
    cartItems := []
    orders := [{ baseOrder with status := .processing, stripe_payment_intent_id := "pi_1" }]
    orderItems := [orderItemW]
    emailsSent := 1 }

/-- Cart holding five units of a product with only three in stock. -/
def sOverdrawnCart : ShopState :=
  { products := [{ productW with stock := 3 }]
    cartItems := [{ product_id := 1, quantity := 5 }]
    orders := []
    orderItems := []
    emailsSent := 0 }

/-- The spec's round-trip product A: price 3.99. -/
def productA : Product :=
  { id := 1, name := "productA", price := 3.99, sale_price := none
    stock := 10, track_inventory := true, is_active := true }

/-- The spec's round-trip product B: price 5.99. -/
def productB : Product :=
  { id := 2, name := "productB", price := 5.99, sale_price := none
    stock := 5, track_inventory := true, is_active := true }

/-- The spec's round-trip cart: productA (3.99, qty 2) and productB (5.99,
qty 1). -/
def sRoundTrip : ShopState :=
  { products := [productA, productB]
    cartItems := [{ product_id := 1, quantity := 2 }, { product_id := 2, quantity := 1 }]
    orders := []
    orderItems := []
    emailsSent := 0 }

/-! ## Helper lemmas -/

/-- `Order.save` never changes any field other than `order_number`. -/
theorem Order.save_id (o : Order) (dateStr : String) (d1 d2 d3 d4 : Fin 10) :
    (o.save dateStr d1 d2 d3 d4).id = o.id := by
  unfold Order.save; split <;> rfl

theorem Order.save_status (o : Order) (dateStr : String) (d1 d2 d3 d4 : Fin 10) :
    (o.save dateStr d1 d2 d3 d4).status = o.status := by
  unfold Order.save; split <;> rfl

/-- Every character produced by `digitChar` is a decimal digit. -/
theorem digitChar_isDigit : ∀ i : Fin 10, (digitChar i).isDigit := by
  decide

/-! ## Claim theorems -/

/-- C4 counterexample: for the product with `price = 5` and
`sale_price = some 10`, the source's `current_price` returns `10`, while
the claim's formula ("sale_price exactly when present and strictly less
than price, else price") returns `5` — the source never compares
`sale_price` with `price`. -/
theorem C4_counterexample :
    Product.current_price productSaleAbovePrice ≠ spec_current_price productSaleAbovePrice := by
  norm_num [Product.current_price, spec_current_price, productSaleAbovePrice]

/-- C4 (amended): the current price equals `sale_price` exactly when
`sale_price` is present and nonzero (Python truthiness), regardless of how
it compares to `price`; when `sale_price` is absent or zero the current
price is `price`. -/
theorem C4_current_price_amended :
    (∀ (p : Product) (sp : ℚ), p.sale_price = some sp → sp ≠ 0 → p.current_price = sp) ∧
    (∀ p : Product, p.sale_price = none ∨ p.sale_price = some 0 → p.current_price = p.price) := by
  constructor
  · intro p sp hsp hne
    unfold Product.current_price
    rw [hsp]
    simp [hne]
  · intro p hp
    rcases hp with h | h <;> simp [Product.current_price, h]

/-- Witness for C4: the amended characterisation applied to concrete
products — `productSaleAbovePrice` (sale price 10 returned over price 5)
and `productW` (no sale price, so `price`). -/
theorem C4_current_price_amended_witness :
    Product.current_price productSaleAbovePrice = 10 ∧
    Product.current_price productW = productW.price :=
  ⟨C4_current_price_amended.1 productSaleAbovePrice 10 rfl (by norm_num),
   C4_current_price_amended.2 productW (Or.inl rfl)⟩

/-- C9: `Order.save` generates an order number only when the field is
empty.  An order whose number is already set is saved entirely unchanged
(so the number is fixed at creation for the order's lifetime, across every
status transition); a blank number is replaced by
`SP-{date}-{suffix}` where the suffix is four decimal digits. -/
theorem C9_order_number_fixed :
    (∀ (o : Order) (dateStr : String) (d1 d2 d3 d4 : Fin 10),
        o.order_number ≠ "" → o.save dateStr d1 d2 d3 d4 = o) ∧
    (∀ (o : Order) (dateStr : String) (d1 d2 d3 d4 : Fin 10),
        o.order_number = "" →
          (o.save dateStr d1 d2 d3 d4).order_number =
              "SP-" ++ dateStr ++ "-" ++ orderNumberSuffix d1 d2 d3 d4 ∧
          (orderNumberSuffix d1 d2 d3 d4).length = 4 ∧
          ∀ c ∈ (orderNumberSuffix d1 d2 d3 d4).toList, c.isDigit) := by
  constructor
  · intro o dateStr d1 d2 d3 d4 h
    unfold Order.save
    rw [if_neg h]
  · intro o dateStr d1 d2 d3 d4 h
    unfold Order.save
    rw [if_pos h]
    refine ⟨rfl, rfl, ?_⟩
    intro c hc
    unfold orderNumberSuffix at hc
    simp only [String.toList, String.mk, List.mem_cons, List.not_mem_nil, or_false] at hc
    rcases hc with h1 | h1 | h1 | h1 <;> subst h1 <;> exact digitChar_isDigit _

/-- Witness for C9: saving `baseOrder` (number already set) changes
nothing; saving a copy with a blank number generates `SP-20260102-0123`. -/
theorem C9_order_number_fixed_witness :
    baseOrder.save "20260102" 0 0 0 0 = baseOrder ∧
    ({ baseOrder with order_number := "" }.save "20260102" 0 1 2 3).order_number =
      "SP-" ++ "20260102" ++ "-" ++ orderNumberSuffix 0 1 2 3 :=
  ⟨C9_order_number_fixed.1 baseOrder "20260102" 0 0 0 0 (by decide),
   (C9_order_number_fixed.2 { baseOrder with order_number := "" } "20260102" 0 1 2 3 rfl).1⟩

/-- C2 divergence, evaluated at the failing input: `sFulfilled` holds one
order already confirmed (`processing`) whose payment id is `pi_1`; a
`payment_intent.payment_failed` webhook for `pi_1` regresses it to
`cancelled` — `handle_failed_payment` never checks the current status,
while the claim requires the event to be rejected or ignored. -/
theorem C2_failed_payment_regresses_fulfilled_order :
    sFulfilled.orders.map Order.status = [.processing] ∧
    (handle_failed_payment sFulfilled "pi_1").orders.map Order.status = [.cancelled] := by
  decide

/-- C1 divergence, evaluated at the failing input: order for session
`cs_1` is `pending` with one item of quantity 3 and product stock 10.  The
`checkout.session.completed` webhook confirms it (stock 7, one email);
the buyer then lands on the success redirect with the provider reporting
`payment_status = 'paid'`, and `payment_success` — which never checks the
order's status — decrements stock again and sends a second email: final
stock 4 = 10 − 2·3, two confirmation emails, not one. -/
theorem C1_webhook_then_redirect_double_fulfils :
    sAwaiting.products.map Product.stock = [10] ∧
    sAwaiting.orderItems.map OrderItem.quantity = [3] ∧
    sAwaiting.emailsSent = 0 ∧
    (let s1 := (stripe_webhook sAwaiting (some "t=1,v1=sig")
        (.ok "checkout.session.completed" "cs_1")).2
     let s2 := (payment_success s1 (some "cs_1")
        (.ok { id := "cs_1", url := "https://stripe.test/pay", payment_status := "paid" })).2
     s1.products.map Product.stock = [7] ∧ s1.emailsSent = 1 ∧
     s2.products.map Product.stock = [4] ∧ s2.emailsSent = 2) := by
  decide

/-- C10: a webhook delivery that passes signature verification but whose
event type is neither `checkout.session.completed` nor
`payment_intent.payment_failed` is acknowledged with HTTP 200 and changes
no state. -/
theorem C10_unhandled_event_acknowledged_unchanged :
    ∀ (s : ShopState) (h : String) (eventType objectId : String),
      eventType ≠ "checkout.session.completed" →
      eventType ≠ "payment_intent.payment_failed" →
      stripe_webhook s (some h) (.ok eventType objectId) = (200, s) := by
  intro s h et oid h1 h2
  simp [stripe_webhook, h1, h2]

/-- Witness for C10: a verified `charge.refunded` event against
`sAwaiting` is acknowledged with 200 and the state is untouched. -/
theorem C10_unhandled_event_acknowledged_unchanged_witness :
    stripe_webhook sAwaiting (some "t=1,v1=sig2") (.ok "charge.refunded" "ch_1") =
      (200, sAwaiting) :=
  C10_unhandled_event_acknowledged_unchanged sAwaiting "t=1,v1=sig2" "charge.refunded" "ch_1"
    (by decide) (by decide)

/-- C8: a webhook delivery with no `Stripe-Signature` header, a malformed
payload, or a failing signature check is rejected with HTTP 400 and
mutates no order, stock or cart state. -/
theorem C8_rejected_webhook_no_mutation :
    ∀ (s : ShopState) (sigHeader : Option String) (verify : WebhookVerify),
      sigHeader = none ∨ verify = .invalidPayload ∨ verify = .invalidSignature →
      stripe_webhook s sigHeader verify = (400, s) := by
  intro s sig v h
  rcases h with h | h | h
  · subst h; rfl
  · subst h; cases sig <;> rfl
  · subst h; cases sig <;> rfl

/-- Witness for C8: the three rejection modes on `sAwaiting`. -/
theorem C8_rejected_webhook_no_mutation_witness :
    stripe_webhook sAwaiting none (.ok "checkout.session.completed" "cs_1") = (400, sAwaiting) ∧
    stripe_webhook sAwaiting (some "t=1,v1=bad") .invalidSignature = (400, sAwaiting) ∧
    stripe_webhook sAwaiting (some "garbled") .invalidPayload = (400, sAwaiting) :=
  ⟨C8_rejected_webhook_no_mutation sAwaiting none _ (Or.inl rfl),
   C8_rejected_webhook_no_mutation sAwaiting _ _ (Or.inr (Or.inr rfl)),
   C8_rejected_webhook_no_mutation sAwaiting _ _ (Or.inr (Or.inl rfl))⟩

/-- C3 counterexample: `productUntracked` has `track_inventory = false` and
`stock = 0`; the claim says the stock check is bypassed and the item is
always created, yet `add_to_cart` rejects the request with an
insufficient-stock error — the view never consults `track_inventory`. -/
theorem C3_track_inventory_not_bypassed :
    productUntracked.track_inventory = false ∧
    add_to_cart [productUntracked] [] 1 1 = (.insufficientStock 0, []) := by
  decide

/-- C3 (amended): `add_to_cart` fails with an insufficient-stock error if
and only if the cumulative quantity (existing cart row plus the request)
exceeds `product.stock`, and otherwise creates or increments the row —
regardless of `track_inventory`, which the view never reads. -/
theorem C3_add_to_cart_stock_iff :
    ∀ (products : List Product) (cart : List CartItem) (productId quantity : Nat) (p : Product),
      products.find? (fun x => x.id == productId && x.is_active) = some p →
      (((add_to_cart products cart productId quantity).1 = .insufficientStock p.stock ↔
          (existingQty cart p.id + quantity : ℤ) > p.stock) ∧
       ((add_to_cart products cart productId quantity).1 = .added ↔
          (existingQty cart p.id + quantity : ℤ) ≤ p.stock)) := by
  intro products cart productId quantity p hfind
  unfold add_to_cart existingQty
  rw [hfind]
  dsimp only
  by_cases hq : (quantity : ℤ) > p.stock
  · rw [if_pos hq]
    constructor
    · simp only [true_iff]
      omega
    · simp only [reduceCtorEq, false_iff]
      omega
  · rw [if_neg hq]
    cases hc : cart.find? (fun ci => ci.product_id == p.id) with
    | none =>
        simp only [hc]
        dsimp only [Option.map, Option.getD]
        constructor
        · simp only [reduceCtorEq, false_iff]
          omega
        · simp only [true_iff]
          omega
    | some item =>
        simp only [hc]
        dsimp only [Option.map, Option.getD]
        by_cases hq2 : ((item.quantity + quantity : Nat) : ℤ) > p.stock
        · rw [if_pos hq2]
          constructor
          · simp only [true_iff]
            omega
          · simp only [reduceCtorEq, false_iff]
            omega
        · rw [if_neg hq2]
          constructor
          · simp only [reduceCtorEq, false_iff]
            omega
          · simp only [true_iff]
            omega

/-- Witness for C3 (amended): a cart already holding 8 of `productW`
(stock 10) and a request for 3 more. -/
theorem C3_add_to_cart_stock_iff_witness :
    ((add_to_cart [productW] [{ product_id := 1, quantity := 8 }] 1 3).1 =
        .insufficientStock productW.stock ↔
      (existingQty [{ product_id := 1, quantity := 8 }] productW.id + 3 : ℤ) > productW.stock) ∧
    ((add_to_cart [productW] [{ product_id := 1, quantity := 8 }] 1 3).1 = .added ↔
      (existingQty [{ product_id := 1, quantity := 8 }] productW.id + 3 : ℤ) ≤ productW.stock) :=
  C3_add_to_cart_stock_iff [productW] [{ product_id := 1, quantity := 8 }] 1 3 productW (by decide)

/-- C5: when the cart holds an item whose quantity exceeds its product's
stock (the product tracking inventory, as the claim assumes), checkout —
GET or POST, form valid or not — answers with the stock error naming that
product and its available stock, and the state is returned untouched: no
order row, no stock change, no cart change. -/
theorem C5_checkout_stock_validation :
    ∀ (s : ShopState) (p : Product) (isPost formValid : Bool) (form : ShippingForm)
      (stripeConfigured : Bool) (gateway : Except Unit StripeSession) (newOrderId : Nat)
      (dateStr : String) (d1 d2 d3 d4 : Fin 10),
      p.track_inventory = true →
      cartTotalItems s.cartItems ≠ 0 →
      firstStockViolation s.products s.cartItems = some p →
      checkout_view s isPost formValid form stripeConfigured gateway newOrderId dateStr d1 d2 d3 d4 =
        (.stockError p.name p.stock, s) := by
  intro s p isPost formValid form sc gw oid dateStr d1 d2 d3 d4 htrack hne hviol
  unfold checkout_view
  rw [if_neg hne, hviol]

/-- Witness for C5: `sOverdrawnCart` holds five units of a product with
three in stock; checkout answers the stock error for it and leaves the
state unchanged. -/
theorem C5_checkout_stock_validation_witness :
    checkout_view sOverdrawnCart true true sampleForm true (.error ()) 1 "20260102" 0 0 0 0 =
      (.stockError ({ productW with stock := 3 } : Product).name
        ({ productW with stock := 3 } : Product).stock, sOverdrawnCart) :=
  C5_checkout_stock_validation sOverdrawnCart { productW with stock := 3 } true true sampleForm
    true (.error ()) 1 "20260102" 0 0 0 0 (by decide) (by decide) (by rfl)

/-- C6: the order-creation block of checkout sets the order's status to
`pending`, snapshots each cart item into an `OrderItem` carrying the
product's name and current price at creation time, leaves the product
table and the cart untouched — and, because the snapshots copy values, a
later product edit (`updateProduct`) never changes stored order items. -/
theorem C6_order_creation_snapshots :
    ∀ (s : ShopState) (form : ShippingForm) (newOrderId : Nat) (dateStr : String)
      (d1 d2 d3 d4 : Fin 10) (ci : CartItem) (p : Product),
      ci ∈ s.cartItems →
      findProduct s.products ci.product_id = some p →
      ((createOrderFromCart s form newOrderId dateStr d1 d2 d3 d4).1.status = .pending ∧
       (createOrderFromCart s form newOrderId dateStr d1 d2 d3 d4).2.products = s.products ∧
       (createOrderFromCart s form newOrderId dateStr d1 d2 d3 d4).2.cartItems = s.cartItems ∧
       (∃ oi ∈ (createOrderFromCart s form newOrderId dateStr d1 d2 d3 d4).2.orderItems,
          oi.order_id = newOrderId ∧ oi.product_name = p.name ∧
          oi.product_price = p.current_price ∧ oi.quantity = ci.quantity) ∧
       (∀ (s' : ShopState) (p' : Product), (updateProduct s' p').orderItems = s'.orderItems)) := by
  intro s form oid dateStr d1 d2 d3 d4 ci p hmem hfind
  refine ⟨?_, rfl, rfl, ?_, fun s' p' => rfl⟩
  · show (Order.save _ _ _ _ _ _).status = .pending
    rw [Order.save_status]
  · refine ⟨{ order_id := oid, product_id := some ci.product_id, product_name := p.name
              product_price := p.current_price, quantity := ci.quantity }, ?_, rfl, rfl, rfl, rfl⟩
    show _ ∈ s.orderItems ++ _
    refine List.mem_append.mpr (Or.inr (List.mem_filterMap.mpr ⟨ci, hmem, ?_⟩))
    rw [hfind]
    rfl

/-- Witness for C6: the spec's round-trip cart — (productA, qty 2, 3.99)
and (productB, qty 1, 5.99) — yields an order with subtotal 13.97 and a
snapshot matching productA's name and price at creation time. -/
theorem C6_order_creation_snapshots_witness :
    (createOrderFromCart sRoundTrip sampleForm 7 "20260102" 1 2 3 4).1.subtotal = 13.97 ∧
    ((createOrderFromCart sRoundTrip sampleForm 7 "20260102" 1 2 3 4).1.status = .pending ∧
     (createOrderFromCart sRoundTrip sampleForm 7 "20260102" 1 2 3 4).2.products =
       sRoundTrip.products ∧
     (createOrderFromCart sRoundTrip sampleForm 7 "20260102" 1 2 3 4).2.cartItems =
       sRoundTrip.cartItems ∧
     (∃ oi ∈ (createOrderFromCart sRoundTrip sampleForm 7 "20260102" 1 2 3 4).2.orderItems,
        oi.order_id = 7 ∧ oi.product_name = productA.name ∧
        oi.product_price = productA.current_price ∧
        oi.quantity = ({ product_id := 1, quantity := 2 } : CartItem).quantity) ∧
     (∀ (s' : ShopState) (p' : Product), (updateProduct s' p').orderItems = s'.orderItems)) :=
  ⟨by
    have h : (createOrderFromCart sRoundTrip sampleForm 7 "20260102" 1 2 3 4).1.subtotal =
        0 + productA.current_price * ((2 : ℕ) : ℚ) + productB.current_price * ((1 : ℕ) : ℚ) := rfl
    rw [h]
    norm_num [productA, productB, Product.current_price],
   C6_order_creation_snapshots sRoundTrip sampleForm 7 "20260102" 1 2 3 4
     { product_id := 1, quantity := 2 } productA (by decide) rfl⟩

/-- Every snapshot produced by the order-creation block carries the new
order's id. -/
theorem snapshot_order_id (products : List Product) (cart : List CartItem) (oid : Nat) :
    ∀ oi ∈ cart.filterMap (fun ci => (findProduct products ci.product_id).map (fun p =>
      ({ order_id := oid, product_id := some ci.product_id, product_name := p.name
         product_price := p.current_price, quantity := ci.quantity } : OrderItem))),
      oi.order_id = oid := by
  intro oi h
  rcases List.mem_filterMap.mp h with ⟨ci, _, hf⟩
  rcases Option.map_eq_some'.mp hf with ⟨p, _, hp⟩
  rw [← hp]

/-- Deleting the freshly created order (and, by cascade, its items) from
the post-creation state restores the original state exactly. -/
theorem rollback_restores (s : ShopState) (order : Order) (newItems : List OrderItem)
    (hnew : ∀ oi ∈ newItems, oi.order_id = order.id)
    (hfresh : ∀ o ∈ s.orders, o.id ≠ order.id)
    (hfresh2 : ∀ oi ∈ s.orderItems, oi.order_id ≠ order.id) :
    ({ s with
        orders := (s.orders ++ [order]).filter (fun o => o.id != order.id),
        orderItems := (s.orderItems ++ newItems).filter (fun oi => oi.order_id != order.id) } :
      ShopState) = s := by
  have h1 : (s.orders ++ [order]).filter (fun o => o.id != order.id) = s.orders := by
    rw [List.filter_append]
    have hsingle : [order].filter (fun o => o.id != order.id) = [] := by
      simp [List.filter]
    rw [hsingle, List.append_nil]
    exact List.filter_eq_self.mpr (fun o ho => by simp [bne_iff_ne, hfresh o ho])
  have h2 : (s.orderItems ++ newItems).filter (fun oi => oi.order_id != order.id) =
      s.orderItems := by
    rw [List.filter_append]
    have hnil : newItems.filter (fun oi => oi.order_id != order.id) = [] := by
      refine List.filter_eq_nil_iff.mpr (fun oi hoi => ?_)
      simp [hnew oi hoi]
    rw [hnil, List.append_nil]
    exact List.filter_eq_self.mpr (fun oi hoi => by simp [bne_iff_ne, hfresh2 oi hoi])
  rw [h1, h2]

/-- C7: when the cart passes validation and Stripe session creation raises
a `StripeError`, checkout deletes the just-created pending order (its item
snapshots cascading away) and sends the buyer back to the checkout page:
provided the new order id is fresh, the final state equals the original
one exactly — no order row remains, and stock and cart are untouched. -/
theorem C7_gateway_error_deletes_pending_order :
    ∀ (s : ShopState) (form : ShippingForm) (newOrderId : Nat) (dateStr : String)
      (d1 d2 d3 d4 : Fin 10),
      cartTotalItems s.cartItems ≠ 0 →
      firstStockViolation s.products s.cartItems = none →
      (∀ o ∈ s.orders, o.id ≠ newOrderId) →
      (∀ oi ∈ s.orderItems, oi.order_id ≠ newOrderId) →
      checkout_view s true true form true (.error ()) newOrderId dateStr d1 d2 d3 d4 =
        (.paymentErrorRedirect, s) := by
  intro s form oid dateStr d1 d2 d3 d4 hne hviol hfresh hfresh2
  unfold checkout_view
  rw [if_neg hne, hviol]
  dsimp only [createOrderFromCart]
  refine congrArg (Prod.mk _) ?_
  exact rollback_restores s _ _
    (fun oi hoi => by
      rw [Order.save_id]
      exact snapshot_order_id s.products s.cartItems oid oi hoi)
    (fun o ho => by
      rw [Order.save_id]
      exact hfresh o ho)
    (fun oi hoi => by
      rw [Order.save_id]
      exact hfresh2 oi hoi)

/-- Witness for C7: the round-trip cart state with an empty order table;
a failing Stripe call leaves the state exactly as it was. -/
theorem C7_gateway_error_deletes_pending_order_witness :
    checkout_view sRoundTrip true true sampleForm true (.error ()) 7 "20260102" 1 2 3 4 =
      (.paymentErrorRedirect, sRoundTrip) :=
  C7_gateway_error_deletes_pending_order sRoundTrip sampleForm 7 "20260102" 1 2 3 4
    (by decide) (by rfl) (by decide) (by decide)
